import Mathlib

/-
  Verification development for the survey auto-filler.

  Shallow embedding of the pure decision logic of the repository:
    - utils.py        (get_val, parse_multi, the other-token splitting)
    - mappings.py     (QUESTION_MAP)
    - processor.py    (question classification loop of process_page)
    - helpers_generic.py (click_radio fallback behaviour)
    - main.py         (fill_one page loop, fill_current_page radio/checkbox
                       planning, resolve_radio_selector, resolve_checkboxes,
                       run_one_row session lifecycle, the run and main batch loops)
    - plan_actions.py (_resolve_checkbox_targets, the checkbox part of
                       build_action_plan)

  Python strings are modelled as Lean String (a list of characters); the
  whitespace set is the ASCII part of the Python str.strip and regex \s set,
  and case folding is ASCII case folding, which covers every pattern and
  configuration string appearing in the repository.
-/

namespace Survey

/-! ### Character and string primitives (Python semantics, ASCII range) -/

/-- The ASCII whitespace characters recognised by Python str.strip and
regex \s: space, tab, newline, carriage return, vertical tab, form feed. -/
def isPySpace (c : Char) : Bool :=
  c = ' ' || c = '\t' || c = '\n' || c = '\r' || c.toNat = 11 || c.toNat = 12

/-- ASCII lower-casing of one character, as used by str.lower and re.I on
the ASCII strings of this code base. -/
def lowerChar (c : Char) : Char :=
  if 'A' ≤ c ∧ c ≤ 'Z' then Char.ofNat (c.toNat + 32) else c

def lowerL (l : List Char) : List Char := l.map lowerChar

/-- Python str.strip on a character list. -/
def stripL (l : List Char) : List Char :=
  ((l.dropWhile isPySpace).reverse.dropWhile isPySpace).reverse

/-- Python str.strip. -/
def stripS (s : String) : String := ⟨stripL s.toList⟩

/-- Replace every maximal whitespace run by one space
(the effect of re.sub with a whitespace-run pattern and a space). -/
def collapseWS : Bool → List Char → List Char
  | _, [] => []
  | prev, c :: rest =>
    if isPySpace c then
      if prev then collapseWS true rest else ' ' :: collapseWS true rest
    else c :: collapseWS false rest

def normL (l : List Char) : List Char := stripL (collapseWS false l)

/-- norm / norm_space of the code base: collapse whitespace runs to a single
space, then strip. -/
def normS (s : String) : String := ⟨normL s.toList⟩

/-- norm_case of main.py: norm_space then lower-case. -/
def normCaseS (s : String) : String := ⟨lowerL (normL s.toList)⟩

/-- str.lower. -/
def lowerS (s : String) : String := ⟨lowerL s.toList⟩

def startsWithL : List Char → List Char → Bool
  | [], _ => true
  | _ :: _, [] => false
  | p :: ps, t :: ts => p = t && startsWithL ps ts

/-- Case-insensitive prefix test (ASCII folding). -/
def startsWithCIL (p t : List Char) : Bool := startsWithL (lowerL p) (lowerL t)

/-- Python substring containment: needle in hay. -/
def isSubstrL (needle : List Char) : List Char → Bool
  | [] => needle.isEmpty
  | c :: rest => startsWithL needle (c :: rest) || isSubstrL needle rest

/-- ilike of helpers_generic.py: needle.lower() in hay.lower(). -/
def ilike (hay needle : String) : Bool :=
  isSubstrL (lowerL needle.toList) (lowerL hay.toList)

/-- Case-sensitive containment on strings. -/
def containsSub (hay needle : String) : Bool :=
  isSubstrL needle.toList hay.toList

/-- startsWith on strings via the list model. -/
def startsWithS (p s : String) : Bool := startsWithL p.toList s.toList

/-! ### Field Resolver: get_val of utils.py -/

/-- First-match association lookup; models the mapping a Python dict or a
pandas row provides (keys are unique, so first match is the match). -/
def rowLookup (row : List (String × String)) (h : String) : Option String :=
  match row with
  | [] => none
  | (k, v) :: rest => if k = h then some v else rowLookup rest h

/-- The raw value a row holds for a header, with the empty string for an
absent header. -/
def rowValD (row : List (String × String)) (h : String) : String :=
  (rowLookup row h).getD ""

/-- get_val of utils.py: return the stripped value of the first header that
is present in the row with a non-empty stripped value, else the default. -/
def get_val (row : List (String × String)) (headers : List String)
    (dflt : String) : String :=
  match headers with
  | [] => dflt
  | h :: rest =>
    match rowLookup row h with
    | some v => if stripS v ≠ "" then stripS v else get_val row rest dflt
    | none => get_val row rest dflt

/-- General first-match characterisation of List.find?. -/
theorem find?_first {α : Type} (p : α → Bool) :
    ∀ (l : List α) (a : α), l.find? p = some a →
      ∃ i, l.get? i = some a ∧ p a = true ∧
        ∀ j, j < i → ∀ b, l.get? j = some b → p b = false := by
  intro l
  induction l with
  | nil => intro a h; simp [List.find?] at h
  | cons x xs ih =>
    intro a h
    by_cases hp : p x = true
    · simp only [List.find?, hp] at h
      obtain rfl : x = a := by simpa using h
      exact ⟨0, rfl, hp, fun j hj => by omega⟩
    · rw [Bool.not_eq_true] at hp
      simp only [List.find?, hp] at h
      obtain ⟨i, hget, hpa, hmin⟩ := ih a h
      refine ⟨i + 1, by simpa using hget, hpa, ?_⟩
      intro j hj b hb
      cases j with
      | zero =>
        simp only [List.get?] at hb
        cases hb; exact hp
      | succ j =>
        exact hmin j (by omega) b (by simpa using hb)

/-- Converse: an element at the least matching index is what find? returns. -/
theorem find?_of_first {α : Type} (p : α → Bool) :
    ∀ (l : List α) (a : α) (i : Nat), l.get? i = some a → p a = true →
      (∀ j, j < i → ∀ b, l.get? j = some b → p b = false) →
      l.find? p = some a := by
  intro l
  induction l with
  | nil => intro a i h; simp [List.get?] at h
  | cons x xs ih =>
    intro a i hget hpa hmin
    cases i with
    | zero =>
      simp only [List.get?] at hget
      cases hget
      simp [List.find?, hpa]
    | succ i =>
      have hx : p x = false := hmin 0 (by omega) x rfl
      simp only [List.find?, hx]
      exact ih a i (by simpa using hget) hpa
        (fun j hj b hb => hmin (j + 1) (by omega) b (by simpa using hb))

/-- C2. The Field Resolver get_val returns the stripped value of the first
candidate header whose stripped row value is non-empty; when every candidate
resolves to a whitespace-only or absent value it returns the default. The
function is total, so resolution never raises. -/
theorem get_val_resolves (row : List (String × String)) (cands : List String)
    (dflt : String) :
    ((∀ c ∈ cands, stripS (rowValD row c) = "") →
        get_val row cands dflt = dflt) ∧
    (∀ c, cands.find? (fun x => decide (stripS (rowValD row x) ≠ "")) = some c →
        get_val row cands dflt = stripS (rowValD row c)) := by
  induction cands with
  | nil =>
    refine ⟨fun _ => rfl, fun c hc => ?_⟩
    simp [List.find?] at hc
  | cons h rest ih =>
    constructor
    · intro hall
      have hh : stripS (rowValD row h) = "" := hall h (List.mem_cons_self h rest)
      have hrest := ih.1 (fun c hc => hall c (List.mem_cons_of_mem h hc))
      show get_val row (h :: rest) dflt = dflt
      cases hr : rowLookup row h with
      | none => simpa [get_val, hr] using hrest
      | some v =>
        have hv : stripS v = "" := by
          simpa [rowValD, hr] using hh
        simp [get_val, hr, hv, hrest]
    · intro c hc
      by_cases hne : stripS (rowValD row h) ≠ ""
      · have hfind : (h :: rest).find?
            (fun x => decide (stripS (rowValD row x) ≠ "")) = some h := by
          rw [List.find?]
          simp [hne]
        rw [hfind] at hc
        cases hc
        cases hr : rowLookup row h with
        | none =>
          exact absurd (by simp [rowValD, hr, stripS, stripL]) hne
        | some v =>
          have hv : stripS v ≠ "" := by simpa [rowValD, hr] using hne
          simp [get_val, hr, hv, rowValD]
      · rw [List.find?] at hc
        rw [not_not] at hne
        simp only [hne] at hc
        have hc' := ih.2 c (by simpa using hc)
        show get_val row (h :: rest) dflt = _
        cases hr : rowLookup row h with
        | none => simpa [get_val, hr] using hc'
        | some v =>
          have hv : stripS v = "" := by simpa [rowValD, hr] using hne
          simp [get_val, hr, hv, hc']

/-- Concrete row exercising get_val: header B holds the first non-empty
value, and an all-empty candidate list falls back to the default. -/
theorem get_val_resolves_witness :
    get_val [("A", "  "), ("B", " x "), ("C", "y")] ["A", "B", "C"] "" = "x" ∧
    get_val [("A", "  "), ("B", " x "), ("C", "y")] ["A", "D"] "absent" = "absent" := by
  constructor
  · exact (get_val_resolves [("A", "  "), ("B", " x "), ("C", "y")]
      ["A", "B", "C"] "").2 "B" (by decide)
  · exact (get_val_resolves [("A", "  "), ("B", " x "), ("C", "y")]
      ["A", "D"] "absent").1 (by decide)

/-! ### Question Classifier: the patterns of mappings.py and the matching
loop of process_page (processor.py)

Every regex in QUESTION_MAP is a sequence of literal segments separated by
greedy any-gap parts, used with unanchored case-insensitive search, where a
gap may not cross a newline. A pattern is embedded as its list of literal
segments; reMatchFuel decides whether segments occur in order, with only
non-newline characters between consecutive segments and anything before and
after, comparing characters case-insensitively. The fuel argument is a
structural-recursion bound; every call site passes a fuel larger than the
sum of the remaining segment count and text length, which the recursion
never exceeds. -/

def reMatchFuel : Nat → Bool → List (List Char) → List Char → Bool
  | _, _, [], _ => true
  | 0, _, _ :: _, _ => false
  | Nat.succ fuel, first, seg :: rest, t =>
    (startsWithCIL seg t && reMatchFuel fuel false rest (t.drop seg.length))
    || (match t with
        | [] => false
        | c :: ts => (first || c != '\n') && reMatchFuel fuel first (seg :: rest) ts)

/-- Unanchored case-insensitive search of a segment pattern in a string:
the model of re.search with the re.I flag on the patterns of mappings.py. -/
def reSearchStr (segs : List String) (s : String) : Bool :=
  reMatchFuel (segs.length + s.toList.length + 1) true (segs.map String.toList) s.toList

/-- One entry of QUESTION_MAP: the pattern (as its literal segments), the
interaction type, the CSV column, the columns of a multi-column binding, and
the value translation table. Fields that an entry of mappings.py omits are
the empty list or string. -/
structure QEntry where
  pattern : List String
  qtype : String
  csv : String
  csv_cols : List String
  value_map : List (String × String)
deriving DecidableEq

/-- QUESTION_MAP of mappings.py, in table order. Each entry's comment gives
the original regex where it contains a gap. -/
def QUESTION_MAP : List QEntry := [
  ⟨["GoPass Use Acknowledgement"], "radio", "ACKNOWLEDGE", [], []⟩,
  ⟨["GoPass Use Acknowledgement"], "radio", "ACKNOWLEDGE", [],
    [("y", "I certify"), ("yes", "I certify")]⟩,
  ⟨["GoPass User Name"], "name3", "", ["First Name", "Middle Name", "Last Name"], []⟩,
  ⟨["In which fare category do you belong"], "radio",
    "In which fare category do you belong?", [], []⟩,
  ⟨["Would you like to receive your GoPass on an Adult Clipper Card"], "radio-yn",
    "Would you like to receive your GoPass on an Adult Clipper Card (digital or physical) that you already own?",
    [], []⟩,
  -- Please enter the serial number.*Adult Clipper Card
  ⟨["Please enter the serial number", "Adult Clipper Card"], "text",
    "Clipper Serial", [], []⟩,
  ⟨["When were you first issued with a GoPass"], "dropdown",
    "When were you first issued with a GoPass?", [], []⟩,
  -- Did you ride Caltrain .* before .* GoPass
  ⟨["Did you ride Caltrain ", " before ", " GoPass"], "radio",
    "Did you ride Caltrain before having a GoPass?", [], []⟩,
  ⟨["What ticket did you typically use prior to the GoPass"], "radio",
    "What ticket did you typically use prior to the GoPass?", [], []⟩,
  -- Prior .* how often did you ride Caltrain
  ⟨["Prior ", " how often did you ride Caltrain"], "radio",
    "Prior to the GoPass, how often did you ride Caltrain?", [], []⟩,
  -- Prior .* most common trip purpose
  ⟨["Prior ", " most common trip purpose"], "radio",
    "Prior to the GoPass, what was your most common trip purpose?", [], []⟩,
  -- Prior .* most common trip.*ON Station
  ⟨["Prior ", " most common trip", "ON Station"], "dropdown",
    "Prior to the GoPass, which Caltrain stations did you use for your most common trip? ON",
    [], []⟩,
  -- Prior .* most common trip.*OFF Station
  ⟨["Prior ", " most common trip", "OFF Station"], "dropdown",
    "Prior to the GoPass, which Caltrain stations did you use for your most common trip? OFF",
    [], []⟩,
  -- After .* most common trip purpose
  ⟨["After ", " most common trip purpose"], "radio",
    "After receiving your 2026 GoPass, what will be your most common trip purpose?", [], []⟩,
  -- How often do you plan to ride Caltrain .* after .* 2026 GoPass
  ⟨["How often do you plan to ride Caltrain ", " after ", " 2026 GoPass"], "radio",
    "How often do you plan to ride Caltrain after receiving your 2026 GoPass?", [], []⟩,
  -- Which Caltrain stations .* most common trip.*ON Station
  ⟨["Which Caltrain stations ", " most common trip", "ON Station"], "dropdown",
    "Which Caltrain stations will you use for your most common trip? ON", [], []⟩,
  -- Which Caltrain stations .* most common trip.*OFF Station
  ⟨["Which Caltrain stations ", " most common trip", "OFF Station"], "dropdown",
    "Which Caltrain stations will you use for your most common trip? OFF", [], []⟩,
  ⟨["How well do you speak English"], "radio", "How well do you speak English?", [], []⟩,
  ⟨["In your home, is English spoken"], "radio", "In your home, is English spoken:", [], []⟩,
  ⟨["Which languages are spoken in your home"], "checkbox-multi",
    "Which languages are spoken in your home?", [], []⟩,
  ⟨["best describes your race/ethnic background"], "checkbox-multi",
    "Which of the following best describes your race/ethnic background?", [], []⟩,
  ⟨["how many people live in your household"], "radio",
    "Including yourself, how many people live in your household?", [], []⟩,
  ⟨["Annual household income"], "radio", "Annual household income (before taxes):", [], []⟩,
  ⟨["What is your home ZIP code"], "text", "What is your home ZIP code?", [], []⟩,
  ⟨["enter your organization or personal email address"], "text",
    "Please enter your organization or personal email address", [], []⟩,
  ⟨["Future communications from Caltrain"], "comms",
    "Future communications from Caltrain (optional)", [], []⟩,
  ⟨["Please confirm the email address"], "text",
    "Please confirm the email address where you would like to receive communications from Caltrain:",
    [], []⟩]

/-- The classification loop of process_page: try each entry of QUESTION_MAP
in table order against the heading and keep the first whose pattern the
case-insensitive search finds. -/
def classify (heading : String) : Option QEntry :=
  QUESTION_MAP.find? (fun m => reSearchStr m.pattern heading)

/-- e is the entry at the least index of QUESTION_MAP whose pattern matches
the heading. -/
def IsFirstMatch (heading : String) (e : QEntry) : Prop :=
  ∃ i, QUESTION_MAP.get? i = some e ∧ reSearchStr e.pattern heading = true ∧
    ∀ j, j < i → ∀ e', QUESTION_MAP.get? j = some e' →
      reSearchStr e'.pattern heading = false

theorem classify_isFirstMatch (heading : String) (e : QEntry)
    (hc : classify heading = some e) : IsFirstMatch heading e := by
  have hc' : QUESTION_MAP.find? (fun m => reSearchStr m.pattern heading) = some e := hc
  obtain ⟨i, hget, hpa, hmin⟩ :=
    find?_first (fun m => reSearchStr m.pattern heading) QUESTION_MAP e hc'
  exact ⟨i, hget, hpa, hmin⟩

theorem isFirstMatch_classify (heading : String) (e : QEntry)
    (hf : IsFirstMatch heading e) : classify heading = some e := by
  obtain ⟨i, hget, hpa, hmin⟩ := hf
  exact find?_of_first (fun m => reSearchStr m.pattern heading) QUESTION_MAP e i hget hpa hmin

theorem isFirstMatch_unique (heading : String) (e₁ e₂ : QEntry)
    (h₁ : IsFirstMatch heading e₁) (h₂ : IsFirstMatch heading e₂) : e₁ = e₂ := by
  have := (isFirstMatch_classify heading e₁ h₁).symm.trans
    (isFirstMatch_classify heading e₂ h₂)
  simpa using this

/-- C1. The Question Classifier tries the QUESTION_MAP patterns in table
order with case-insensitive regex search and returns the first entry whose
pattern matches, so a classified heading is matched by its entry and by no
earlier entry; and any two classifications of the same heading agree on the
interaction type and the field binding. -/
theorem classify_first_match_deterministic (heading : String) (e : QEntry)
    (hc : classify heading = some e) :
    IsFirstMatch heading e ∧
    ∀ e', classify heading = some e' →
      e'.qtype = e.qtype ∧ e'.csv = e.csv ∧ e'.csv_cols = e.csv_cols := by
  refine ⟨classify_isFirstMatch heading e hc, fun e' hc' => ?_⟩
  have : e = e' := by
    have := hc.symm.trans hc'
    simpa using this
  simp [this]

/-- The classifier on the GoPass User Name heading: it selects the name3
entry, which no earlier entry matches, and repeated classification agrees. -/
theorem classify_first_match_deterministic_witness :
    IsFirstMatch "GoPass User Name"
      ⟨["GoPass User Name"], "name3", "", ["First Name", "Middle Name", "Last Name"], []⟩ ∧
    ∀ e', classify "GoPass User Name" = some e' →
      e'.qtype = "name3" ∧ e'.csv = "" ∧
      e'.csv_cols = ["First Name", "Middle Name", "Last Name"] :=
  classify_first_match_deterministic "GoPass User Name"
    ⟨["GoPass User Name"], "name3", "", ["First Name", "Middle Name", "Last Name"], []⟩
    (by decide)

/-- C7 fails as stated: the heading GoPass Use Acknowledgement is matched by
two distinct entries of QUESTION_MAP, the entries at indices 0 and 1. -/
theorem two_entries_match_same_heading :
    QUESTION_MAP.get? 0 =
      some ⟨["GoPass Use Acknowledgement"], "radio", "ACKNOWLEDGE", [], []⟩ ∧
    QUESTION_MAP.get? 1 =
      some ⟨["GoPass Use Acknowledgement"], "radio", "ACKNOWLEDGE", [],
        [("y", "I certify"), ("yes", "I certify")]⟩ ∧
    reSearchStr ["GoPass Use Acknowledgement"] "GoPass Use Acknowledgement" = true ∧
    (⟨["GoPass Use Acknowledgement"], "radio", "ACKNOWLEDGE", [], []⟩ : QEntry) ≠
      ⟨["GoPass Use Acknowledgement"], "radio", "ACKNOWLEDGE", [],
        [("y", "I certify"), ("yes", "I certify")]⟩ := by
  refine ⟨rfl, rfl, by decide, by decide⟩

/-- C7 amended. More than one entry of QUESTION_MAP can match the same
heading, but the classifier still selects exactly one entry for it: the
first match is unique, and it is what classify returns. -/
theorem first_match_selection_unique (heading : String) (e₁ e₂ : QEntry)
    (h₁ : IsFirstMatch heading e₁) (h₂ : IsFirstMatch heading e₂) :
    e₁ = e₂ ∧ classify heading = some e₁ :=
  ⟨isFirstMatch_unique heading e₁ e₂ h₁ h₂, isFirstMatch_classify heading e₁ h₁⟩

/-- The unique selection applied to the ambiguous acknowledgement heading:
both hypotheses are discharged with the entry at index 0, the one the
classifier returns. -/
theorem first_match_selection_unique_witness :
    (⟨["GoPass Use Acknowledgement"], "radio", "ACKNOWLEDGE", [], []⟩ : QEntry) =
      ⟨["GoPass Use Acknowledgement"], "radio", "ACKNOWLEDGE", [], []⟩ ∧
    classify "GoPass Use Acknowledgement" =
      some ⟨["GoPass Use Acknowledgement"], "radio", "ACKNOWLEDGE", [], []⟩ :=
  first_match_selection_unique "GoPass Use Acknowledgement" _ _
    (classify_isFirstMatch _ _ (by decide))
    (classify_isFirstMatch _ _ (by decide))

/-! ### Multi-value splitting and the other-token diversion
(parse_multi, resolve_checkboxes and the checkbox part of fill_current_page
in main.py; _resolve_checkbox_targets and build_action_plan in
plan_actions.py) -/

/-- str.split on a non-empty separator string, scanning left to right
without overlap; an empty separator never matches (the code never passes
one, since an empty delimiter is falsy and selects the regex path). The
fuel is the length of the remaining text, which bounds the recursion. -/
def splitOnSepFuel (sep : List Char) : Nat → List Char → List Char → List (List Char)
  | _, [], acc => [acc.reverse]
  | 0, l, acc => [acc.reverse ++ l]
  | Nat.succ fuel, c :: rest, acc =>
    if !sep.isEmpty && startsWithL sep (c :: rest) then
      acc.reverse :: splitOnSepFuel sep fuel (List.drop (sep.length - 1) rest) []
    else
      splitOnSepFuel sep fuel rest (c :: acc)

def splitOnSepL (sep l : List Char) : List (List Char) :=
  splitOnSepFuel sep l.length l []

/-- re.split on a single-character alternative class: split at every
occurrence of any of the given characters. -/
def splitOnAnyOf (cs : List Char) : List Char → List (List Char)
  | [] => [[]]
  | c :: rest =>
    let r := splitOnAnyOf cs rest
    if cs.contains c then [] :: r
    else
      match r with
      | [] => [[c]]
      | h :: t => (c :: h) :: t

/-- parse_multi of main.py: empty cell gives no tokens; a truthy delimiter
splits on it, otherwise the cell splits on semicolon or comma; every part is
whitespace-normalised and empty parts are dropped. -/
def parse_multi (cell : String) (delim : Option String) : List String :=
  if cell = "" then []
  else
    let parts :=
      match delim with
      | some d => if d = "" then splitOnAnyOf [';', ','] cell.toList
                  else splitOnSepL d.toList cell.toList
      | none => splitOnAnyOf [';', ','] cell.toList
    (((parts.map normL).filter (fun p => !p.isEmpty)).map fun p => (⟨p⟩ : String))

/-- Index of the first colon of the list, provided no newline comes before
it: the reach of a lazy any-gap between the other marker and the colon in
the prefix-stripping pattern of main.py, where the gap cannot cross a
newline. -/
def findColonNoNL : List Char → Option Nat
  | [] => none
  | c :: rest =>
    if c = ':' then some 0
    else if c = '\n' then none
    else (findColonNoNL rest).map (· + 1)

/-- The prefix-stripping substitution of main.py and plan_actions.py: if the
string is leading whitespace, then the word other case-insensitively, then a
lazy gap up to a colon, then whitespace, remove that prefix; otherwise leave
the string unchanged. -/
def stripOtherHead (s : List Char) : List Char :=
  let t := s.dropWhile isPySpace
  if startsWithCIL "other".toList t then
    let rest := t.drop 5
    match findColonNoNL rest with
    | some k => (rest.drop (k + 1)).dropWhile isPySpace
    | none => s
  else s

/-- The free text extracted from one other token: the substitution above
followed by str.strip, as the checkbox other branch of fill_current_page
computes it. -/
def otherFreeText (tok : String) : String := ⟨stripL (stripOtherHead tok.toList)⟩

/-- The free texts collected from the tokens whose normalised lower-case
form begins with other, keeping only non-empty extractions (the free_vals
loop of fill_current_page). -/
def checkboxOtherFreeVals (tokens : List String) : List String :=
  tokens.filterMap fun tok =>
    if startsWithS "other" (normCaseS tok) then
      let v := otherFreeText tok
      if v = "" then none else some v
    else none

/-- str.join of Python: interleave the separator between the items. -/
def joinWith (sep : String) : List String → String
  | [] => ""
  | [x] => x
  | x :: y :: xs => x ++ sep ++ joinWith sep (y :: xs)

/-- The checkbox other branch of fill_current_page: when the entry has a
truthy other-text selector and some token begins with other, the non-empty
free texts are joined with a semicolon and a space and typed into that
selector, provided the selector is in the active content. Returns the
selector and the typed text, or nothing when the branch does not fire. -/
def checkboxOtherTyped (other_text_css : Option String) (cell : String)
    (delim : Option String) (otherVisible : Bool) : Option (String × String) :=
  let ocss := other_text_css.getD ""
  let toks := parse_multi cell delim
  if ocss ≠ "" ∧ toks.any (fun x => startsWithS "other" (normCaseS x)) then
    let free_vals := checkboxOtherFreeVals toks
    if free_vals ≠ [] ∧ otherVisible then some (ocss, joinWith "; " free_vals)
    else none
  else none

/-- C4 fails on its join clause: with two other tokens the free texts are
joined with a semicolon and a space, not with a comma. -/
theorem other_tokens_join_semicolon_not_comma :
    checkboxOtherTyped (some "#other-box") "Other: a; Other: b" (some ";") true
      = some ("#other-box", "a; b") ∧
    checkboxOtherTyped (some "#other-box") "Other: a; Other: b" (some ";") true
      ≠ some ("#other-box", "a, b") := by
  refine ⟨by decide, by decide⟩

/-- C4 amended. Splitting the raw value with the semicolon delimiter yields
the two expected tokens; a token beginning case-insensitively with other is
diverted with its prefix up to the colon stripped; and when several other
tokens exist their texts are joined with a semicolon and a space (not a
comma) into the companion field. -/
theorem other_tokens_diverted_stripped :
    parse_multi "A; Other: custom text" (some ";") = ["A", "Other: custom text"] ∧
    checkboxOtherFreeVals ["A", "Other: custom text"] = ["custom text"] ∧
    checkboxOtherFreeVals ["OTHER: x", "other: y"] = ["x", "y"] ∧
    checkboxOtherTyped (some "#o") "A; Other: custom text" (some ";") true
      = some ("#o", "custom text") ∧
    checkboxOtherTyped (some "#o") "Other: a; Other: b" (some ";") true
      = some ("#o", "a; b") := by
  refine ⟨by decide, by decide, by decide, by decide, by decide⟩

/-- A choice-input selector of the Qualtrics page, synthesised from the
group and the option index. -/
def choiceSelector (group idx : String) : String :=
  "#mc-choice-input-" ++ group ++ "-" ++ idx

/-- The per-token resolution loop of resolve_checkboxes in main.py: an exact
key hit appends its selector unconditionally; otherwise the first key whose
normalised lower-case form equals that of the token is used if its index is
truthy; everything else is unmatched. Order of both lists is preserved. -/
def resolveCheckboxItems (group : String) (vm : List (String × String)) :
    List String → List String × List String
  | [] => ([], [])
  | it :: rest =>
    let (s, u) := resolveCheckboxItems group vm rest
    match rowLookup vm it with
    | some v => (choiceSelector group v :: s, u)
    | none =>
      match vm.find? (fun kv => normCaseS kv.1 == normCaseS it) with
      | some kv =>
        if kv.2 ≠ "" then (choiceSelector group kv.2 :: s, u) else (s, it :: u)
      | none => (s, it :: u)

/-- resolve_checkboxes of main.py: split the cell into tokens; with a truthy
value map resolve each token, otherwise every token is unmatched and nothing
is selected. Returns the selectors to check and the unmatched tokens. -/
def resolve_checkboxes (group : String) (value_map : Option (List (String × String)))
    (cell : String) (multi_delim : Option String) : List String × List String :=
  let items := parse_multi cell multi_delim
  if items = [] then ([], [])
  else
    let vm := value_map.getD []
    if vm ≠ [] then resolveCheckboxItems group vm items
    else ([], items)

/-- The check clicks the checkbox part of fill_current_page performs: one
per resolved selector. With no resolved selector it performs none, and it
reports the unmatched tokens in a skip line. -/
def fillCheckboxChecks (group : String) (value_map : Option (List (String × String)))
    (cell : String) (multi_delim : Option String) : List String :=
  (resolve_checkboxes group value_map cell multi_delim).1

/-- The token list of _resolve_checkbox_targets in plan_actions.py: split on
the configured delimiter string, normalise, drop empty parts. -/
def planTokens (csv_cell : String) (delimiter : String) : List String :=
  if csv_cell = "" then []
  else ((((splitOnSepL delimiter.toList csv_cell.toList).map normL).filter
      (fun p => !p.isEmpty)).map fun p => (⟨p⟩ : String))

/-- The per-token loop of _resolve_checkbox_targets: an exact key hit is
kept only if its index is truthy; a case-insensitive hit canonicalises the
token to the key and is kept only if its index is truthy; everything else is
unmatched. -/
def resolvePlanTokens (group : String) (vm : List (String × String)) :
    List String → List (String × String) × List String
  | [] => ([], [])
  | tok :: rest =>
    let (tc, um) := resolvePlanTokens group vm rest
    match rowLookup vm tok with
    | some v =>
      if v ≠ "" then ((choiceSelector group v, tok) :: tc, um) else (tc, tok :: um)
    | none =>
      match vm.find? (fun kv => lowerS (normS kv.1) == lowerS tok) with
      | some kv =>
        -- the loop rebinds the token to the canonical key on a hit
        if kv.2 ≠ "" then ((choiceSelector group kv.2, kv.1) :: tc, um)
        else (tc, kv.1 :: um)
      | none => (tc, tok :: um)

/-- _resolve_checkbox_targets of plan_actions.py: with no truthy value map
no selector can be synthesised, so every token is returned unmatched for
visibility. -/
def resolve_checkbox_targets (group : String)
    (value_map : Option (List (String × String))) (csv_cell : String)
    (delimiter : String) : List (String × String) × List String :=
  if csv_cell = "" then ([], [])
  else
    let tokens := planTokens csv_cell delimiter
    if tokens = [] then ([], [])
    else
      let vm := value_map.getD []
      if vm ≠ [] then resolvePlanTokens group vm tokens
      else ([], tokens)

/-- An action of the checkbox section of build_action_plan: a CHECK for each
resolved target, then a single SKIP carrying the unmatched tokens when any
exist. -/
inductive PlanAct where
  | check (selector : String) (label : String)
  | skipUnmatched (unmatched : List String)
deriving DecidableEq

/-- The checkbox section of build_action_plan in plan_actions.py for one
mapping entry whose group is truthy. -/
def planCheckboxEntry (group : String) (value_map : Option (List (String × String)))
    (cell : String) (delimiter : String) : List PlanAct :=
  let (to_check, unmatched) := resolve_checkbox_targets group value_map cell delimiter
  (to_check.map fun sl => PlanAct.check sl.1 sl.2) ++
    (if unmatched ≠ [] then [PlanAct.skipUnmatched unmatched] else [])

/-- C10. A checkbox group configured with no value-translation table checks
no option: the filler resolves no selector and every token is unmatched (for
both the None and the empty table configuration), and the planner emits no
check action for the group, only the single skip record carrying all the
tokens, when there are any. -/
theorem checkbox_without_value_map_checks_nothing (group cell : String)
    (delim : Option String) (dl : String) :
    resolve_checkboxes group none cell delim = ([], parse_multi cell delim) ∧
    resolve_checkboxes group (some []) cell delim = ([], parse_multi cell delim) ∧
    fillCheckboxChecks group none cell delim = [] ∧
    resolve_checkbox_targets group none cell dl = ([], planTokens cell dl) ∧
    planCheckboxEntry group none cell dl =
      (if planTokens cell dl = [] then []
       else [PlanAct.skipUnmatched (planTokens cell dl)]) := by
  have h1 : resolve_checkboxes group none cell delim = ([], parse_multi cell delim) := by
    unfold resolve_checkboxes
    by_cases h : parse_multi cell delim = [] <;> simp [h]
  have h2 : resolve_checkboxes group (some []) cell delim
      = ([], parse_multi cell delim) := by
    unfold resolve_checkboxes
    by_cases h : parse_multi cell delim = [] <;> simp [h]
  have h4 : resolve_checkbox_targets group none cell dl = ([], planTokens cell dl) := by
    unfold resolve_checkbox_targets
    by_cases hc : cell = ""
    · simp [hc, planTokens]
    · by_cases h : planTokens cell dl = [] <;> simp [hc, h]
  refine ⟨h1, h2, ?_, h4, ?_⟩
  · simp [fillCheckboxChecks, h1]
  · unfold planCheckboxEntry
    rw [h4]
    by_cases h : planTokens cell dl = [] <;> simp [h]

/-! ### Single-choice (radio) handling

Two drivers handle radios: fill_current_page in main.py resolves the cell
through the value-translation table and, when that fails with no other slot,
skips with a value-not-mapped log; the older driver in processor.py goes
through click_radio of helpers_generic.py, which falls back to force-checking
the first radio input of the section when nothing matches. -/

/-- resolve_radio_selector of main.py: empty desired value resolves to
nothing; an exact key of the value map gives its selector; otherwise the
first key equal under normalisation and lower-casing gives its selector. -/
def resolve_radio_selector (group : String) (value_map : List (String × String))
    (desired : String) : Option String :=
  if desired = "" then none
  else
    match rowLookup value_map desired with
    | some idx => some (choiceSelector group idx)
    | none =>
      match value_map.find? (fun kv => normCaseS kv.1 == normCaseS desired) with
      | some kv => some (choiceSelector group kv.2)
      | none => none

/-- One radio entry of the mapping consumed by fill_current_page. Absent
optional configuration is the empty string (falsy in the code). -/
structure RadioEntry where
  group : String
  csv : String
  value_map : List (String × String)
  other_text_css : String
  default_if_nonempty : String
deriving DecidableEq

/-- The decision the radio loop of fill_current_page reaches for one entry,
mirroring its branch order. -/
inductive RadioPlan where
  | skipMissingCfg
  | skipEmpty
  | skipNotPresent
  | clickDefault (selector : String)
  | clickMapped (selector : String)
  | otherFallback (css : String)
  | skipNotMapped
deriving DecidableEq

/-- The branch structure of the radio loop of fill_current_page: skip
entries with falsy group or header; normalise the cell and skip when empty;
skip when the group is not on the active page; honour default_if_nonempty;
then the mapped selector; then the other fallback; else log value not
mapped and do nothing. -/
def radioDecision (r : RadioEntry) (rawCell : String) (groupPresent : Bool) :
    RadioPlan :=
  if r.group = "" ∨ r.csv = "" then .skipMissingCfg
  else
    let cell := normS rawCell
    if cell = "" then .skipEmpty
    else if !groupPresent then .skipNotPresent
    else if r.default_if_nonempty ≠ "" then .clickDefault r.default_if_nonempty
    else
      match resolve_radio_selector r.group r.value_map cell with
      | some sel => .clickMapped sel
      | none =>
        if r.other_text_css ≠ "" then .otherFallback r.other_text_css
        else .skipNotMapped

/-- C3 amended (the fill_current_page driver). For a radio entry with no
default shortcut, when the normalised non-empty cell resolves to no entry of
the value-translation table and no other slot is configured, the decision is
the value-not-mapped skip, which clicks nothing. The older processor.py
driver violates the original claim: see the counterexample on click_radio. -/
theorem radio_unmapped_without_other_skips (r : RadioEntry) (rawCell : String)
    (hg : r.group ≠ "") (hcsv : r.csv ≠ "") (hcell : normS rawCell ≠ "")
    (hdflt : r.default_if_nonempty = "")
    (hres : resolve_radio_selector r.group r.value_map (normS rawCell) = none)
    (hoth : r.other_text_css = "") :
    radioDecision r rawCell true = .skipNotMapped ∧
    (∀ sel, radioDecision r rawCell true ≠ .clickMapped sel) ∧
    (∀ sel, radioDecision r rawCell true ≠ .clickDefault sel) := by
  have hmain : radioDecision r rawCell true = .skipNotMapped := by
    unfold radioDecision
    rw [if_neg (by simp [hg, hcsv])]
    simp only [hcell, if_neg, hdflt, hoth]
    simp [hres, hcell]
  exact ⟨hmain, fun sel => by simp [hmain], fun sel => by simp [hmain]⟩

/-- The skip decision on a concrete unmapped value: the fare-category group
maps Adult and Youth, the cell holds Martian, no default and no other slot
are configured. -/
theorem radio_unmapped_without_other_skips_witness :
    radioDecision ⟨"QID10", "fare", [("Adult", "1"), ("Youth", "2")], "", ""⟩
        "Martian" true = .skipNotMapped ∧
    (∀ sel, radioDecision ⟨"QID10", "fare", [("Adult", "1"), ("Youth", "2")], "", ""⟩
        "Martian" true ≠ .clickMapped sel) ∧
    (∀ sel, radioDecision ⟨"QID10", "fare", [("Adult", "1"), ("Youth", "2")], "", ""⟩
        "Martian" true ≠ .clickDefault sel) :=
  radio_unmapped_without_other_skips
    ⟨"QID10", "fare", [("Adult", "1"), ("Youth", "2")], "", ""⟩ "Martian"
    (by decide) (by decide) (by decide) (by decide) (by decide) (by decide)

/-- A radio question section as click_radio of helpers_generic.py sees it:
the accessible names of its role radios, the texts of its choice labels, and
the counts of its radio inputs and of its aria radio elements. -/
structure RadioSection where
  roleNames : List String
  labelTexts : List String
  radioInputCount : Nat
  ariaRadioCount : Nat
deriving DecidableEq

/-- What click_radio ends up clicking. -/
inductive RadioClick where
  | roleFirst
  | labelAt (i : Nat)
  | firstInputForced
  | ariaFirst
  | noTarget
deriving DecidableEq

/-- The label comparison of click_radio: ilike of the normalised texts, or
plain containment of the normalised wanted text in the normalised label. -/
def labelMatches (lbl want : String) : Bool :=
  ilike (normS lbl) (normS want) || containsSub (normS lbl) (normS want)

/-- The role lookup of click_radio: a non-exact accessible-name match, i.e.
case-insensitive containment of the wanted text in the name. -/
def roleNameMatches (nm want : String) : Bool :=
  isSubstrL (lowerL want.toList) (lowerL nm.toList)

/-- Index of the first list element satisfying the predicate. -/
def firstIdx (p : α → Bool) : List α → Option Nat
  | [] => none
  | x :: xs => if p x then some 0 else (firstIdx p xs).map (· + 1)

/-- click_radio of helpers_generic.py: with a truthy text, try the role
radios, then the labels; when neither matches, or with no text at all, fall
back to force-checking the first radio input of the section, then to
clicking the first aria radio. -/
def click_radio (sec : RadioSection) (text : Option String) : RadioClick :=
  let fallback :=
    if sec.radioInputCount > 0 then RadioClick.firstInputForced
    else if sec.ariaRadioCount > 0 then RadioClick.ariaFirst
    else RadioClick.noTarget
  match text with
  | some t =>
    if t = "" then fallback
    else if sec.roleNames.any (fun nm => roleNameMatches nm t) then .roleFirst
    else
      match firstIdx (fun lbl => labelMatches lbl t) sec.labelTexts with
      | some i => .labelAt i
      | none => fallback
  | none => fallback

/-- Whether a click_radio outcome selects some option of the group. -/
def selectsAnOption : RadioClick → Bool
  | .noTarget => false
  | _ => true

/-- C3 fails as stated for the processor.py driver: on a section whose
labels are Adult and Youth, the unmappable value Martian matches no role
name and no label, there is no other slot in this driver, and click_radio
still force-checks the first radio input: an option is selected by
defaulting instead of a value-not-mapped skip. -/
theorem click_radio_guesses_first_radio :
    (["Adult (full fare)", "Youth"].all
      (fun lbl => !labelMatches lbl "Martian")) = true ∧
    click_radio ⟨[], ["Adult (full fare)", "Youth"], 2, 0⟩ (some "Martian")
      = .firstInputForced ∧
    selectsAnOption
      (click_radio ⟨[], ["Adult (full fare)", "Youth"], 2, 0⟩ (some "Martian"))
      = true := by
  refine ⟨by decide, by decide, by decide⟩

/-! ### The Page Driver loops of main.py

fill_one (the later definition, the one in effect) reads the page signature,
processes the page, clicks next on both branches, breaks on the thank-you
marker, recomputes the signature and counts consecutive unchanged readings,
breaking at three; the whole loop runs at most 120 iterations. The page is
abstracted as functions of the number of advance attempts performed so far:
the signature visible then and whether the thank-you marker is visible. -/

structure PageModel where
  sig : Nat → String
  thankYou : Nat → Bool

inductive FillExit where
  | done
  | stuck
  | ceiling
deriving DecidableEq

/-- The loop body of fill_one from the iteration at the given step count and
stuck tick count, with the remaining iteration budget as fuel. Returns the
number of advance attempts performed and the exit reason. -/
def fillOneFrom (p : PageModel) : Nat → Nat → Nat → Nat × FillExit
  | 0, step, _ => (step, .ceiling)
  | Nat.succ rem, step, ticks =>
    if p.thankYou (step + 1) then (step + 1, .done)
    else
      let ticks' := if p.sig (step + 1) = p.sig step then ticks + 1 else 0
      if 3 ≤ ticks' then (step + 1, .stuck)
      else fillOneFrom p rem (step + 1) ticks'

/-- fill_one of main.py: 120 loop iterations, starting with no stuck ticks. -/
def fill_one (p : PageModel) : Nat × FillExit := fillOneFrom p 120 0 0

/-- On a constant-signature page with no thank-you marker, the loop runs the
stuck counter up to 3 and aborts, whatever the starting position, as long as
the budget suffices. -/
theorem fillOneFrom_const_sig_stuck (p : PageModel)
    (hsig : ∀ n, p.sig n = p.sig 0) (hthank : ∀ n, p.thankYou n = false) :
    ∀ rem step ticks, ticks < 3 → 3 ≤ ticks + rem →
      fillOneFrom p rem step ticks = (step + (3 - ticks), .stuck) := by
  intro rem
  induction rem with
  | zero => intro step ticks hlt hge; omega
  | succ n ih =>
    intro step ticks hlt hge
    have hss : p.sig (step + 1) = p.sig step :=
      (hsig (step + 1)).trans (hsig step).symm
    rw [fillOneFrom, hthank (step + 1), if_neg (by simp), if_pos hss]
    by_cases h3 : 3 ≤ ticks + 1
    · rw [if_pos h3]
      have h2 : step + (3 - ticks) = step + 1 := by omega
      rw [h2]
    · rw [if_neg h3, ih (step + 1) (ticks + 1) (by omega) (by omega)]
      have h2 : step + 1 + (3 - (ticks + 1)) = step + (3 - ticks) := by omega
      rw [h2]

/-- C5. On a page whose signature never changes and which never shows the
thank-you marker, fill_one aborts the row as stuck after exactly 3 advance
attempts, so it performs no more than 3 plus a small constant attempts. -/
theorem fill_one_aborts_stuck_page (p : PageModel)
    (hsig : ∀ n, p.sig n = p.sig 0) (hthank : ∀ n, p.thankYou n = false) :
    fill_one p = (3, .stuck) ∧ (fill_one p).1 ≤ 3 := by
  have h : fill_one p = (3, .stuck) := by
    show fillOneFrom p 120 0 0 = (3, .stuck)
    rw [fillOneFrom_const_sig_stuck p hsig hthank 120 0 0 (by omega) (by omega)]
  exact ⟨h, by rw [h]⟩

/-- The stuck abort on a concrete static page. -/
theorem fill_one_aborts_stuck_page_witness :
    fill_one ⟨fun _ => "Q1 || Q2", fun _ => false⟩ = (3, .stuck) ∧
    (fill_one ⟨fun _ => "Q1 || Q2", fun _ => false⟩).1 ≤ 3 :=
  fill_one_aborts_stuck_page ⟨fun _ => "Q1 || Q2", fun _ => false⟩
    (fun _ => rfl) (fun _ => rfl)

/-- The advance-attempt count of fillOneFrom never exceeds the starting step
count plus the iteration budget. -/
theorem fillOneFrom_attempts_le (p : PageModel) :
    ∀ rem step ticks, (fillOneFrom p rem step ticks).1 ≤ step + rem := by
  intro rem
  induction rem with
  | zero => intro step ticks; simp [fillOneFrom]
  | succ n ih =>
    intro step ticks
    rw [fillOneFrom]
    split
    · show step + 1 ≤ step + (n + 1)
      omega
    · dsimp only
      by_cases hs : p.sig (step + 1) = p.sig step
      · rw [if_pos hs]
        by_cases h3 : 3 ≤ ticks + 1
        · rw [if_pos h3]
          show step + 1 ≤ step + (n + 1)
          omega
        · rw [if_neg h3]
          exact le_trans (ih (step + 1) _) (by omega)
      · rw [if_neg hs, if_neg (by omega)]
        exact le_trans (ih (step + 1) _) (by omega)

/-- The page state run_one_row of main.py drives, abstracted as functions of
the number of page transitions performed so far: how many fill actions the
current page yields, whether the next button is enabled, and whether
question sections are present. -/
structure RowPageModel where
  didActions : Nat → Nat
  nextEnabled : Nat → Bool
  questionsPresent : Nat → Bool

inductive RowRunState where
  | running (transitions : Nat)
  | halted (transitions : Nat)
deriving DecidableEq

/-- The while-true loop of run_one_row, observed for a given number of
iterations: fill the page, then on both the zero-action and the some-action
branch advance when the next button is enabled and halt when it is not, and
halt when no question section remains after advancing. A state still running
when the observation budget ends carries its transition count. -/
def runOneRowLoop (m : RowPageModel) : Nat → Nat → RowRunState
  | 0, tr => .running tr
  | Nat.succ fuel, tr =>
    if m.didActions tr = 0 then
      if m.nextEnabled tr then
        if m.questionsPresent (tr + 1) then runOneRowLoop m fuel (tr + 1)
        else .halted (tr + 1)
      else .halted tr
    else
      if m.nextEnabled tr then
        if m.questionsPresent (tr + 1) then runOneRowLoop m fuel (tr + 1)
        else .halted (tr + 1)
      else .halted tr

/-- A page that always yields an action, always keeps the next button
enabled, and always shows a question section. -/
def relentlessPage : RowPageModel :=
  ⟨fun _ => 1, fun _ => true, fun _ => true⟩

theorem runOneRowLoop_relentless :
    ∀ fuel tr, runOneRowLoop relentlessPage fuel tr = .running (tr + fuel) := by
  intro fuel
  induction fuel with
  | zero => intro tr; rfl
  | succ n ih =>
    intro tr
    rw [runOneRowLoop, ite_self,
      if_pos (show relentlessPage.nextEnabled tr = true from rfl),
      if_pos (show relentlessPage.questionsPresent (tr + 1) = true from rfl),
      ih (tr + 1)]
    have h : tr + 1 + n = tr + (n + 1) := by omega
    rw [h]

/-- C6 fails as stated: after 121 observed iterations on a page that always
keeps the next button enabled and a question visible, run_one_row has
performed 121 page transitions, beyond any 80 to 120 ceiling, and is still
running: its loop carries no hard iteration ceiling. -/
theorem run_one_row_exceeds_ceiling :
    runOneRowLoop relentlessPage 121 0 = .running 121 ∧ 120 < 121 := by
  refine ⟨?_, by omega⟩
  have := runOneRowLoop_relentless 121 0
  simpa using this

/-- C6 amended. The fill_one driver is bounded by its hard ceiling: it never
performs more than 120 advance attempts, whatever the page does. The
run_one_row driver has no such ceiling: on a page that always keeps the next
button enabled and a question visible it is still running after any number
of iterations, each adding a page transition. -/
theorem fill_one_bounded_run_one_row_not :
    (∀ p : PageModel, (fill_one p).1 ≤ 120) ∧
    (∀ n : Nat, runOneRowLoop relentlessPage n 0 = .running n) := by
  constructor
  · intro p
    have := fillOneFrom_attempts_le p 120 0 0
    simpa [fill_one] using this
  · intro n
    have := runOneRowLoop_relentless n 0
    simpa using this

/-! ### Run Orchestrators and session lifecycle

main.py has two orchestrators. run iterates the selected row indices and
wraps each run_one_row call in an exception handler that logs the row index
and continues; the simpler main (and the main of main_autofill.py) iterates
the data frame rows with no per-row handler, so a raising row ends the loop.
Driving one row is abstracted as its outcome: normal return or a raised
exception with a message. -/

/-- The log entry the run loop leaves for one row: completion, or the caught
error logged with the row index. -/
inductive RowLog where
  | ok (idx : Nat)
  | err (idx : Nat) (msg : String)
deriving DecidableEq

/-- The row loop of run in main.py: every selected index is driven inside a
per-row exception handler; an error is logged with its row index and the
loop continues with the next index. -/
def runBatch (driver : Nat → Except String Unit) : List Nat → List RowLog
  | [] => []
  | idx :: rest =>
    (match driver idx with
     | .ok _ => RowLog.ok idx
     | .error e => RowLog.err idx e) :: runBatch driver rest

/-- The row loop of the simple main in main.py (and of main_autofill.py):
no per-row handler, so a raised exception propagates out of the loop.
Returns the indices that were driven and the escaped error, if any. -/
def mainBatch (driver : Nat → Except String Unit) : List Nat → List Nat × Option String
  | [] => ([], none)
  | idx :: rest =>
    match driver idx with
    | .ok _ =>
      let r := mainBatch driver rest
      (idx :: r.1, r.2)
    | .error e => ([idx], some e)

/-- A driver raising on the first row and succeeding elsewhere. -/
def failFirstDriver : Nat → Except String Unit :=
  fun i => if i = 0 then .error "boom" else .ok ()

/-- C8 fails as stated for the simple orchestrators: with a driver that
raises on row 0, the loop of main drives row 0, the exception escapes, and
row 1 is never processed: the failing row halts the batch there. -/
theorem main_batch_halts_on_failing_row :
    mainBatch failFirstDriver [0, 1] = ([0], some "boom") := by
  rfl

/-- C8 amended. In the run orchestrator every selected row is processed
whatever the other rows do: the log entry at position k is exactly the
outcome of driving the row at position k, an error being recorded with its
row index, so a failing row never halts the remaining rows there. The
simple main orchestrators lack the handler and stop at the first raising
row. -/
theorem run_batch_continues_after_failure (driver : Nat → Except String Unit)
    (indices : List Nat) (k idx : Nat) (h : indices.get? k = some idx) :
    (runBatch driver indices).get? k =
      some (match driver idx with
            | .ok _ => RowLog.ok idx
            | .error e => RowLog.err idx e) := by
  induction indices generalizing k with
  | nil => simp [List.get?] at h
  | cons x rest ih =>
    cases k with
    | zero =>
      simp only [List.get?] at h
      cases h
      rfl
    | succ k =>
      simp only [List.get?] at h
      show (runBatch driver (x :: rest)).get? (k + 1) = _
      rw [runBatch]
      simpa using ih k h

/-- The continuation on a concrete batch: the driver raises on row 0, yet
row 1 is still driven, and the row 0 failure is logged with its index. -/
theorem run_batch_continues_after_failure_witness :
    (runBatch failFirstDriver [0, 1]).get? 1 = some (RowLog.ok 1) ∧
    (runBatch failFirstDriver [0, 1]).get? 0 = some (RowLog.err 0 "boom") :=
  ⟨run_batch_continues_after_failure failFirstDriver [0, 1] 1 1 rfl,
   run_batch_continues_after_failure failFirstDriver [0, 1] 0 0 rfl⟩

/-- The observable lifecycle events of run_one_row in main.py. -/
inductive SessionEv where
  | launch
  | newContext
  | newPage
  | driveRow
  | closeContext
  | closeBrowser
deriving DecidableEq

/-- run_one_row of main.py: launch the browser, open the context and the
page, drive the row, then close the context and the browser. The two close
calls stand at the end of the function body with no finally block, so a
raised exception inside driving skips both and propagates. The body of the
drive is abstracted as its outcome. -/
def run_one_row_events (body : Except String Unit) :
    List SessionEv × Except String Unit :=
  match body with
  | .ok _ =>
    ([.launch, .newContext, .newPage, .driveRow, .closeContext, .closeBrowser], .ok ())
  | .error e =>
    ([.launch, .newContext, .newPage, .driveRow], .error e)

/-- C9 fails as stated: when driving the row raises, run_one_row never
reaches its close calls: the browser context is not closed on the failure
path, so cleanup is not guaranteed there. -/
theorem context_not_closed_on_failure :
    SessionEv.closeContext ∉ (run_one_row_events (.error "nav timeout")).1 ∧
    SessionEv.closeBrowser ∉ (run_one_row_events (.error "nav timeout")).1 := by
  refine ⟨by decide, by decide⟩

/-- C9 amended. On the success path run_one_row closes the context, and the
browser after it, before returning, hence before the next row starts; on the
failure path the exception skips both close calls and propagates (to the
handler of run, which proceeds to the next row with the context left open). -/
theorem context_closed_on_success_only :
    ((run_one_row_events (.ok ())).1.indexOf SessionEv.closeContext <
        (run_one_row_events (.ok ())).1.length ∧
      (run_one_row_events (.ok ())).1.indexOf SessionEv.closeContext <
        (run_one_row_events (.ok ())).1.indexOf SessionEv.closeBrowser ∧
      (run_one_row_events (.ok ())).2 = .ok ()) ∧
    ∀ e : String, SessionEv.closeContext ∉ (run_one_row_events (.error e)).1 ∧
      (run_one_row_events (.error e)).2 = .error e := by
  refine ⟨⟨by decide, by decide, rfl⟩, fun e => ⟨?_, rfl⟩⟩
  show SessionEv.closeContext ∉ [SessionEv.launch, SessionEv.newContext,
    SessionEv.newPage, SessionEv.driveRow]
  decide

end Survey
